import Mathlib

/-!
Verification of the web-identity credential provider
(`services/sts/src/custom/web_identity.rs`): the deferred-value resolution
of the three inputs (token, role ARN, session name), the two-stage
credential-exchange state machine, and its error behaviour.

External collaborators (the `Variable`/`Secret` deferred-value abstraction
from `rusoto_core::credential`, the HTTP client constructor, the STS
request/response types and the credentials translation) are not part of the
source file under verification; they are modelled from the specification and
marked as such in their doc comments.  Everything else is a direct
transcription of the Rust source.
-/

namespace WebIdentity

/-- Process environment: a mapping from environment-variable names to values;
`none` means the variable is unset. -/
def Env : Type := String → Option String

/-- File system: a mapping from paths to file contents; `none` means the file
is absent or unreadable. -/
def Fs : Type := String → Option String

/-- Modelled from the spec: `rusoto_core::credential::CredentialsError`, the
uniform credentials error type carrying a message. -/
structure CredentialsError where
  message : String
deriving Repr, DecidableEq

/-- Modelled from the spec: `rusoto_core::credential::Secret`, the sensitive
token wrapper whose plain value requires an explicit accessor. -/
structure Secret where
  value : String
deriving Repr, DecidableEq

/-- Explicit accessor for the plain token text (`Secret::as_ref` in the
source). -/
def Secret.as_ref (s : Secret) : String := s.value

/-- Modelled from the spec: trailing newline/whitespace is trimmed from file
contents before a file-sourced value is returned (spec 4.1, FileContents). -/
def rtrim (s : String) : String :=
  ((s.toList.reverse.dropWhile Char.isWhitespace).reverse).asString

/-- Modelled from the spec: the Deferred Value abstraction
(`rusoto_core::credential::Variable`), a tagged variant over a fixed value,
an environment lookup, file contents at a known path, and a computed source
(spec 3 and 4.1).  The computed variant receives the external environment and
file system, the only effects resolution may perform. -/
inductive Variable (T : Type) where
  | with_value (v : T)
  | from_env_var (name : String) (conv : String → T)
  | from_text_file (path : String) (conv : String → T)
  | dynamic (f : Env → Fs → Except CredentialsError T)

/-- Modelled from the spec: resolution of a Deferred Value (spec 4.1).
Fixed values never fail; an environment lookup fails with a MissingInput
error when the variable is unset; file contents fail with MissingInput when
the file is unreadable and are right-trimmed otherwise; a computed source
runs its closure. -/
def Variable.resolve {T : Type} : Variable T → Env → Fs → Except CredentialsError T
  | .with_value v, _, _ => .ok v
  | .from_env_var name conv, env, _ =>
      match env name with
      | some v => .ok (conv v)
      | none =>
          .error ⟨"MissingInput: environment variable " ++ name ++ " is not set"⟩
  | .from_text_file path conv, _, fs =>
      match fs path with
      | some contents => .ok (conv (rtrim contents))
      | none => .error ⟨"MissingInput: could not read file " ++ path⟩
  | .dynamic f, env, fs => f env fs

/-- Environment-variable name for the token file path (source line 12). -/
def AWS_WEB_IDENTITY_TOKEN_FILE : String := "AWS_WEB_IDENTITY_TOKEN_FILE"

/-- Environment-variable name for the role ARN (source line 14). -/
def AWS_ROLE_ARN : String := "AWS_ROLE_ARN"

/-- Environment-variable name for the session name (source line 16). -/
def AWS_ROLE_SESSION_NAME : String := "AWS_ROLE_SESSION_NAME"

/-- `WebIdentityProvider` (source lines 22-35): three deferred values for the
web identity token, the role ARN and the session name. -/
structure WebIdentityProvider where
  web_identity_token : Variable Secret
  role_arn : Variable String
  role_session_name : Variable String

/-- `WebIdentityProvider::create_session_name` (source lines 87-96): the
fixed default session name. -/
def WebIdentityProvider.create_session_name : String := "WebIdentitySession"

/-- `WebIdentityProvider::new` (source lines 39-52): wraps the arguments;
an absent session name falls back to a fixed value holding the default
session name. -/
def WebIdentityProvider.new (web_identity_token : Variable Secret)
    (role_arn : Variable String) (role_session_name : Option (Variable String)) :
    WebIdentityProvider :=
  { web_identity_token := web_identity_token
    role_arn := role_arn
    role_session_name :=
      role_session_name.getD
        (Variable.with_value WebIdentityProvider.create_session_name) }

/-- `WebIdentityProvider::_from_k8s_env` (source lines 71-81): the token is a
computed value that resolves the token-file path variable and then reads and
trims the file at that path. -/
def WebIdentityProvider._from_k8s_env (token_file : Variable String)
    (role : Variable String) (session_name : Option (Variable String)) :
    WebIdentityProvider :=
  WebIdentityProvider.new
    (Variable.dynamic (fun env fs =>
      (token_file.resolve env fs).bind (fun path =>
        (Variable.from_text_file path Secret.mk).resolve env fs)))
    role session_name

/-- `WebIdentityProvider::from_k8s_env` (source lines 62-68): builds the
provider from the three fixed environment variables; note that the session
name is passed as `some` of an environment lookup. -/
def WebIdentityProvider.from_k8s_env : WebIdentityProvider :=
  WebIdentityProvider._from_k8s_env
    (Variable.from_env_var AWS_WEB_IDENTITY_TOKEN_FILE id)
    (Variable.from_env_var AWS_ROLE_ARN id)
    (some (Variable.from_env_var AWS_ROLE_SESSION_NAME id))

/-- `WebIdentityProvider::load_token` (source lines 83-85): resolves the
token deferred value alone.  Resolution touches only the environment and the
file system; no network interaction is modelled here, matching the source
where `load_token` merely calls `Variable::resolve`. -/
def WebIdentityProvider.load_token (p : WebIdentityProvider) (env : Env)
    (fs : Fs) : Except CredentialsError Secret :=
  p.web_identity_token.resolve env fs

/-- Modelled from the spec: the STS `Credentials` payload (access key,
expiration, secret key, session token) returned by the remote exchange. -/
structure Credentials where
  access_key_id : String
  expiration : String
  secret_access_key : String
  session_token : String
deriving Repr, DecidableEq

/-- Modelled from the spec: the `AssumedRoleUser` response element. -/
structure AssumedRoleUser where
  arn : String
  assumed_role_id : String
deriving Repr, DecidableEq

/-- Modelled from the spec: `AssumeRoleWithWebIdentityResponse`, a response
with an optional credentials payload among other optional fields. -/
structure AssumeRoleWithWebIdentityResponse where
  assumed_role_user : Option AssumedRoleUser := none
  audience : Option String := none
  credentials : Option Credentials := none
  packed_policy_size : Option Nat := none
  provider : Option String := none
  subject_from_web_identity_token : Option String := none
deriving Repr, DecidableEq

/-- Modelled from the spec: `AssumeRoleWithWebIdentityRequest`; only the role
ARN, session name and token are filled in by the state machine, the other
fields keep their defaults. -/
structure AssumeRoleWithWebIdentityRequest where
  duration_seconds : Option Nat := none
  policy : Option String := none
  provider_id : Option String := none
  role_arn : String := ""
  role_session_name : String := ""
  web_identity_token : String := ""
deriving Repr, DecidableEq

/-- `AssumeRoleWithWebIdentityRequest::default()` as used at source line
143. -/
def AssumeRoleWithWebIdentityRequest.default : AssumeRoleWithWebIdentityRequest :=
  {}

/-- Modelled from the spec: the caller-facing `AwsCredentials`
representation (access key, secret key, session token, expiration). -/
structure AwsCredentials where
  key : String
  secret : String
  token : Option String := none
  expires_at : Option String := none
deriving Repr, DecidableEq

/-- Modelled from the spec: `AwsCredentials::new_for_credentials`, the
structural, lossless translation of the STS credentials payload into the
standard representation (spec 3, Credentials: "passed through unmodified
except for structural translation"). -/
def AwsCredentials.new_for_credentials (c : Credentials) : AwsCredentials :=
  { key := c.access_key_id
    secret := c.secret_access_key
    token := some c.session_token
    expires_at := some c.expiration }

/-- Readiness of an asynchronous poll (`futures::Async`). -/
inductive Async (α : Type) where
  | ready (a : α)
  | notReady
deriving Repr, DecidableEq

/-- The external world one resolution attempt runs against: the process
environment, the file system, the outcome of `HttpClient::new()` (modelled
from the spec as fallible construction whose error is reported by its
message), and the remote exchange client's poll outcome for a given request
(modelled from the spec: the collaborator returns a response or an error,
here by its message). -/
structure World where
  env : Env
  fs : Fs
  http_client_new : Except String Unit
  remote_poll : AssumeRoleWithWebIdentityRequest →
    Except String (Async AssumeRoleWithWebIdentityResponse)

/-- `WebIdentityProviderFutureState` (source lines 113-120): either the three
captured resolution outcomes, or the in-flight exchange call, identified by
the request it was issued with. -/
inductive WebIdentityProviderFutureState where
  | loadBearerToken (token : Except CredentialsError Secret)
      (role : Except CredentialsError String)
      (session : Except CredentialsError String)
  | exchangeToken (req : AssumeRoleWithWebIdentityRequest)
deriving Repr

/-- The request built at source lines 143-146: defaults with role ARN, plain
token text and session name filled in. -/
def buildRequest (token : Secret) (role session : String) :
    AssumeRoleWithWebIdentityRequest :=
  { AssumeRoleWithWebIdentityRequest.default with
      role_arn := role
      web_identity_token := token.as_ref
      role_session_name := session }

/-- The `ExchangeToken` arm of `poll` (source lines 151-161): poll the remote
future; on a ready response translate the credentials payload or fail with
the no-credentials message carrying the response; propagate not-ready; wrap a
remote error's message. -/
def pollExchange (w : World) (req : AssumeRoleWithWebIdentityRequest) :
    Except CredentialsError (Async AwsCredentials) :=
  match w.remote_poll req with
  | .ok (.ready r) =>
      match r.credentials with
      | some c => .ok (.ready (AwsCredentials.new_for_credentials c))
      | none =>
          .error ⟨"No credentials found in AssumeRoleWithWebIdentityResponse: "
            ++ reprStr r⟩
  | .ok .notReady => .ok .notReady
  | .error e => .error ⟨e⟩

/-- `WebIdentityProviderFuture::poll` (source lines 131-163).  Returns the
state after the call, the poll outcome, and the list of exchange requests
issued to the remote client during the call.  The four `loadBearerToken`
arms mirror the Rust match arms in order (token error first, then role, then
session); on all-ok the HTTP client is constructed, the request is built, the
state advances to `exchangeToken` and the new state is polled immediately,
exactly as the recursive `self.poll()` at source line 148 does. -/
def poll (w : World) :
    WebIdentityProviderFutureState →
    WebIdentityProviderFutureState × Except CredentialsError (Async AwsCredentials) ×
      List AssumeRoleWithWebIdentityRequest
  | .loadBearerToken (.error e) r s =>
      (.loadBearerToken (.error e) r s, .error e, [])
  | .loadBearerToken (.ok t) (.error e) s =>
      (.loadBearerToken (.ok t) (.error e) s, .error e, [])
  | .loadBearerToken (.ok t) (.ok r) (.error e) =>
      (.loadBearerToken (.ok t) (.ok r) (.error e), .error e, [])
  | .loadBearerToken (.ok token) (.ok role) (.ok session) =>
      match w.http_client_new with
      | .error e =>
          (.loadBearerToken (.ok token) (.ok role) (.ok session), .error ⟨e⟩, [])
      | .ok _ =>
          let req := buildRequest token role session
          (.exchangeToken req, pollExchange w req, [req])
  | .exchangeToken req => (.exchangeToken req, pollExchange w req, [])

/-- `ProvideAwsCredentials::credentials` (source lines 102-110): the initial
state captures the three resolution outcomes at the moment credentials are
requested; no network interaction happens here. -/
def WebIdentityProvider.credentials (p : WebIdentityProvider) (env : Env)
    (fs : Fs) : WebIdentityProviderFutureState :=
  .loadBearerToken (p.load_token env fs) (p.role_arn.resolve env fs)
    (p.role_session_name.resolve env fs)

/-! ### Concrete environments and worlds used as witnesses -/

/-- A Kubernetes-style environment with the token-file and role variables set
but `AWS_ROLE_SESSION_NAME` unset. -/
def envNoSession : Env := fun name =>
  if name = "AWS_WEB_IDENTITY_TOKEN_FILE" then some "/var/run/secrets/token"
  else if name = "AWS_ROLE_ARN" then some "arn:aws:iam::123456789012:role/demo"
  else none

/-- A file system holding a token file whose content ends in a newline. -/
def fsToken : Fs := fun path =>
  if path = "/var/run/secrets/token" then some "secret\n" else none

/-- A world with a working HTTP client and a remote client that is never
ready. -/
def worldNoSession : World :=
  { env := envNoSession
    fs := fsToken
    http_client_new := .ok ()
    remote_poll := fun _ => .ok .notReady }

/-- C1: with the session-name variable unset but token and role resolving,
the provider built by `from_k8s_env` does NOT succeed with the default
session name: the session resolution fails with a MissingInput error, the
attempt terminates with that error and no exchange request is issued.  This
contradicts the claim (and the source's own doc comment calling
`AWS_ROLE_SESSION_NAME` optional): `from_k8s_env` wraps the session lookup in
`Some`, so the default in `new` is never used. -/
theorem C1_session_unset_fails_not_defaults :
    (WebIdentityProvider.from_k8s_env.load_token worldNoSession.env worldNoSession.fs
      = .ok ⟨"secret"⟩) ∧
    (WebIdentityProvider.from_k8s_env.role_arn.resolve worldNoSession.env worldNoSession.fs
      = .ok "arn:aws:iam::123456789012:role/demo") ∧
    ((poll worldNoSession
        (WebIdentityProvider.from_k8s_env.credentials worldNoSession.env worldNoSession.fs)).2.1
      = .error ⟨"MissingInput: environment variable AWS_ROLE_SESSION_NAME is not set"⟩) ∧
    ((poll worldNoSession
        (WebIdentityProvider.from_k8s_env.credentials worldNoSession.env worldNoSession.fs)).2.2
      = []) := by
  refine ⟨rfl, rfl, rfl, rfl⟩

/-- C2: the poll outcome reports the first failing input in the fixed
priority order token, role, session: a token error is reported whatever the
role and session outcomes are; a role error is reported over a session error
when the token resolved; a session error is reported only when token and
role both resolved. -/
theorem C2_error_priority (w : World) (et er es : CredentialsError)
    (tok : Secret) (role : String)
    (r s : Except CredentialsError String) :
    ((poll w (.loadBearerToken (.error et) r s)).2.1 = .error et) ∧
    ((poll w (.loadBearerToken (.ok tok) (.error er) s)).2.1 = .error er) ∧
    ((poll w (.loadBearerToken (.ok tok) (.ok role) (.error es))).2.1 = .error es) :=
  ⟨rfl, rfl, rfl⟩

/-- C8: `new` with an absent session name stores the fixed default
`"WebIdentitySession"` as the session-name deferred value, and that value
resolves to the literal without failure in every environment. -/
theorem C8_default_session_name (tok : Variable Secret) (role : Variable String) :
    ((WebIdentityProvider.new tok role none).role_session_name
      = Variable.with_value WebIdentityProvider.create_session_name) ∧
    (∀ env fs, (WebIdentityProvider.new tok role none).role_session_name.resolve env fs
      = .ok "WebIdentitySession") :=
  ⟨rfl, fun _ _ => rfl⟩

/-- A world in which HTTP client construction fails. -/
def worldHttpFail : World :=
  { env := fun _ => none
    fs := fun _ => none
    http_client_new := .error "Could not create TLS connector"
    remote_poll := fun _ => .ok .notReady }

/-- C3 counterexample: in a world where HTTP client construction fails, a
state whose three inputs all resolved issues zero exchange requests on poll,
not exactly one as the claim demands. -/
theorem C3_counterexample :
    ¬ ((poll worldHttpFail
        (.loadBearerToken (.ok ⟨"tok"⟩) (.ok "role") (.ok "sess"))).2.2.length = 1) := by
  decide

/-- C3 (amended): when some input failed, no exchange request is issued and
the poll terminates with that input's error (the three shapes below cover
every state with a failed input); when all inputs resolved AND the HTTP
client is constructed successfully, exactly one exchange request is issued;
a poll of the exchanging state leaves the state unchanged (the machine never
moves back to input resolution) and issues no further request. -/
theorem C3_resolution_gates_exchange (w : World) (h : w.http_client_new = .ok ()) :
    (∀ e r s, ((poll w (.loadBearerToken (.error e) r s)).2.1 = .error e) ∧
      ((poll w (.loadBearerToken (.error e) r s)).2.2 = [])) ∧
    (∀ tok e s, ((poll w (.loadBearerToken (.ok tok) (.error e) s)).2.1 = .error e) ∧
      ((poll w (.loadBearerToken (.ok tok) (.error e) s)).2.2 = [])) ∧
    (∀ tok role e,
      ((poll w (.loadBearerToken (.ok tok) (.ok role) (.error e))).2.1 = .error e) ∧
      ((poll w (.loadBearerToken (.ok tok) (.ok role) (.error e))).2.2 = [])) ∧
    (∀ tok role sess, (poll w (.loadBearerToken (.ok tok) (.ok role) (.ok sess))).2.2
      = [buildRequest tok role sess]) ∧
    (∀ req, ((poll w (.exchangeToken req)).1 = .exchangeToken req) ∧
      ((poll w (.exchangeToken req)).2.2 = [])) := by
  refine ⟨fun e r s => ⟨rfl, rfl⟩, fun tok e s => ⟨rfl, rfl⟩,
    fun tok role e => ⟨rfl, rfl⟩, fun tok role sess => ?_, fun req => ⟨rfl, rfl⟩⟩
  simp [poll, h]

/-- C3 witness: in a concrete world with a working HTTP client, polling an
all-resolved state issues exactly the one built request. -/
theorem C3_witness :
    (poll worldNoSession
        (.loadBearerToken (.ok ⟨"tok"⟩) (.ok "role") (.ok "sess"))).2.2
      = [buildRequest ⟨"tok"⟩ "role" "sess"] :=
  (C3_resolution_gates_exchange worldNoSession rfl).2.2.2.1 ⟨"tok"⟩ "role" "sess"

/-- C10: when all three inputs resolved but HTTP client construction fails,
the attempt completes with a credentials error wrapping the construction
error's message, and no exchange request is issued. -/
theorem C10_http_client_construction_failure (w : World) (tok : Secret)
    (role sess : String) (e : String) (hh : w.http_client_new = .error e) :
    ((poll w (.loadBearerToken (.ok tok) (.ok role) (.ok sess))).2.1 = .error ⟨e⟩) ∧
    ((poll w (.loadBearerToken (.ok tok) (.ok role) (.ok sess))).2.2 = []) := by
  constructor <;> simp [poll, hh]

/-- C10 witness: the HTTP-failure behaviour at a concrete world. -/
theorem C10_witness :
    ((poll worldHttpFail (.loadBearerToken (.ok ⟨"t"⟩) (.ok "r") (.ok "s"))).2.1
      = .error ⟨"Could not create TLS connector"⟩) ∧
    ((poll worldHttpFail (.loadBearerToken (.ok ⟨"t"⟩) (.ok "r") (.ok "s"))).2.2 = []) :=
  C10_http_client_construction_failure worldHttpFail ⟨"t"⟩ "r" "s"
    "Could not create TLS connector" rfl

/-- A concrete credentials payload. -/
def credsReady : Credentials :=
  ⟨"AKIDEXAMPLE", "2026-01-01T00:00:00Z", "wJalrXUt", "AQoDYXdzEE"⟩

/-- A response carrying the concrete credentials payload. -/
def respReady : AssumeRoleWithWebIdentityResponse := { credentials := some credsReady }

/-- A world whose remote exchange client is immediately ready with
`respReady`. -/
def worldReady : World :=
  { env := fun _ => none
    fs := fun _ => none
    http_client_new := .ok ()
    remote_poll := fun _ => .ok (.ready respReady) }

/-- C4: when the three inputs resolved and the remote exchange returns a
response carrying a credentials payload, the attempt completes successfully
with exactly that payload translated by `new_for_credentials`, and the
translation is lossless (injective). -/
theorem C4_success_lossless (w : World) (tok : Secret) (role sess : String)
    (resp : AssumeRoleWithWebIdentityResponse) (c : Credentials)
    (hh : w.http_client_new = .ok ())
    (hr : w.remote_poll (buildRequest tok role sess) = .ok (.ready resp))
    (hc : resp.credentials = some c) :
    ((poll w (.loadBearerToken (.ok tok) (.ok role) (.ok sess))).2.1
      = .ok (.ready (AwsCredentials.new_for_credentials c))) ∧
    (∀ c1 c2 : Credentials,
      AwsCredentials.new_for_credentials c1 = AwsCredentials.new_for_credentials c2 →
        c1 = c2) := by
  constructor
  · simp [poll, pollExchange, hh, hr, hc]
  · intro c1 c2 hEq
    cases c1; cases c2
    simp [AwsCredentials.new_for_credentials, AwsCredentials.mk.injEq,
      Credentials.mk.injEq] at hEq ⊢
    obtain ⟨h1, h2, h3, h4⟩ := hEq
    exact ⟨h1, h4, h2, h3⟩

/-- C4 witness: the successful translation at a concrete world and payload. -/
theorem C4_witness :
    (poll worldReady (.loadBearerToken (.ok ⟨"t"⟩) (.ok "r") (.ok "s"))).2.1
      = .ok (.ready (AwsCredentials.new_for_credentials credsReady)) :=
  (C4_success_lossless worldReady ⟨"t"⟩ "r" "s" respReady credsReady rfl rfl rfl).1

/-- A response with no credentials payload. -/
def respEmpty : AssumeRoleWithWebIdentityResponse :=
  { audience := some "client.example.com" }

/-- A world whose remote exchange client is immediately ready with the
credentials-free `respEmpty`. -/
def worldEmpty : World :=
  { env := fun _ => none
    fs := fun _ => none
    http_client_new := .ok ()
    remote_poll := fun _ => .ok (.ready respEmpty) }

/-- C5: when the remote exchange succeeds but the response carries no
credentials payload, the attempt completes with an error whose message is
the no-credentials diagnostic followed by the rendered raw response; in
particular it does not complete successfully and defaults to nothing. -/
theorem C5_empty_response (w : World) (tok : Secret) (role sess : String)
    (resp : AssumeRoleWithWebIdentityResponse)
    (hh : w.http_client_new = .ok ())
    (hr : w.remote_poll (buildRequest tok role sess) = .ok (.ready resp))
    (hc : resp.credentials = none) :
    (poll w (.loadBearerToken (.ok tok) (.ok role) (.ok sess))).2.1
      = .error ⟨"No credentials found in AssumeRoleWithWebIdentityResponse: "
          ++ reprStr resp⟩ := by
  simp [poll, pollExchange, hh, hr, hc]

/-- C5 witness: the empty-response failure at a concrete world. -/
theorem C5_witness :
    (poll worldEmpty (.loadBearerToken (.ok ⟨"t"⟩) (.ok "r") (.ok "s"))).2.1
      = .error ⟨"No credentials found in AssumeRoleWithWebIdentityResponse: "
          ++ reprStr respEmpty⟩ :=
  C5_empty_response worldEmpty ⟨"t"⟩ "r" "s" respEmpty rfl rfl rfl

/-- C6: for a provider built by `from_k8s_env`, when the token-file path
variable resolves to a path and the file at that path is readable, the
resolved token is exactly the file's contents with trailing whitespace
trimmed. -/
theorem C6_token_file_trimmed (env : Env) (fs : Fs) (path contents : String)
    (hp : env "AWS_WEB_IDENTITY_TOKEN_FILE" = some path)
    (hf : fs path = some contents) :
    WebIdentityProvider.from_k8s_env.load_token env fs = .ok ⟨rtrim contents⟩ := by
  simp [WebIdentityProvider.from_k8s_env, WebIdentityProvider._from_k8s_env,
    WebIdentityProvider.new, WebIdentityProvider.load_token, Variable.resolve,
    AWS_WEB_IDENTITY_TOKEN_FILE, hp, hf, Except.bind]

/-- A Kubernetes-style environment with all three variables set. -/
def envFull : Env := fun name =>
  if name = "AWS_WEB_IDENTITY_TOKEN_FILE" then some "/var/run/secrets/token"
  else if name = "AWS_ROLE_ARN" then some "arn:aws:iam::123456789012:role/demo"
  else if name = "AWS_ROLE_SESSION_NAME" then some "mysession"
  else none

/-- C6 witness: a token file containing `"secret\n"` resolves to exactly
`"secret"`. -/
theorem C6_witness :
    WebIdentityProvider.from_k8s_env.load_token envFull fsToken = .ok ⟨"secret"⟩ := by
  have h := C6_token_file_trimmed envFull fsToken "/var/run/secrets/token" "secret\n"
    rfl rfl
  exact h

/-- A world over the fully-populated environment with a working HTTP client
and a never-ready remote client. -/
def worldFull : World :=
  { env := envFull
    fs := fsToken
    http_client_new := .ok ()
    remote_poll := fun _ => .ok .notReady }

/-- C7: the token resolved by `load_token` in isolation is exactly the token
a full resolution attempt hands to the remote exchange client: when the
three inputs (as captured by `credentials`, whose token component is
literally `load_token`) resolve, the single issued request carries
`load_token`'s value as its token text.  `load_token` itself is resolution
only — it reads the environment and file system and is not involved in any
exchange request. -/
theorem C7_load_token_agrees (p : WebIdentityProvider) (w : World)
    (tok : Secret) (role sess : String)
    (ht : p.load_token w.env w.fs = .ok tok)
    (hr : p.role_arn.resolve w.env w.fs = .ok role)
    (hs : p.role_session_name.resolve w.env w.fs = .ok sess)
    (hh : w.http_client_new = .ok ()) :
    ((poll w (p.credentials w.env w.fs)).2.2 = [buildRequest tok role sess]) ∧
    ((buildRequest tok role sess).web_identity_token = tok.as_ref) := by
  constructor
  · simp [WebIdentityProvider.credentials, ht, hr, hs, poll, hh]
  · rfl

/-- C7 witness: for the environment-built provider in a concrete world, the
one issued request carries the isolated `load_token` result `"secret"`. -/
theorem C7_witness :
    ((poll worldFull
        (WebIdentityProvider.from_k8s_env.credentials worldFull.env worldFull.fs)).2.2
      = [buildRequest ⟨"secret"⟩ "arn:aws:iam::123456789012:role/demo" "mysession"]) ∧
    ((buildRequest ⟨"secret"⟩ "arn:aws:iam::123456789012:role/demo"
        "mysession").web_identity_token = Secret.as_ref ⟨"secret"⟩) :=
  C7_load_token_agrees WebIdentityProvider.from_k8s_env worldFull ⟨"secret"⟩
    "arn:aws:iam::123456789012:role/demo" "mysession" rfl rfl rfl rfl

/-- C9: the poll outcome — and hence every error message the attempt can
produce — is invariant under changing the resolved token value, provided the
external remote client reacts identically to the two requests: no error
constructed by the state machine embeds the token text (only the role,
session, HTTP construction error and remote response/error feed into
outcomes). -/
theorem C9_token_noninterference (w : World) (t1 t2 : Secret) (role sess : String)
    (hrem : w.remote_poll (buildRequest t1 role sess)
      = w.remote_poll (buildRequest t2 role sess)) :
    (poll w (.loadBearerToken (.ok t1) (.ok role) (.ok sess))).2.1
      = (poll w (.loadBearerToken (.ok t2) (.ok role) (.ok sess))).2.1 := by
  cases hh : w.http_client_new with
  | error e => simp [poll, hh]
  | ok u => simp [poll, hh, pollExchange, hrem]

/-- C9 witness: two different tokens give the identical outcome in a
concrete world whose remote client ignores the request. -/
theorem C9_witness :
    (poll worldReady (.loadBearerToken (.ok ⟨"token-one"⟩) (.ok "r") (.ok "s"))).2.1
      = (poll worldReady (.loadBearerToken (.ok ⟨"token-two"⟩) (.ok "r") (.ok "s"))).2.1 :=
  C9_token_noninterference worldReady ⟨"token-one"⟩ ⟨"token-two"⟩ "r" "s" rfl

end WebIdentity
